import Mathlib

/-
Shallow embedding of the reflow-backend-mpc control stack.

Python floats and ctypes doubles are modelled as exact rationals,
Python ints as Int, raised exceptions as the error branch of Except
or as Option.none, and each loop body as a pure step function on an
explicit state record.  Field and function names follow the source.
-/

namespace ReflowMPC

/-- Oven states, from constants.py. -/
inductive OvenState where
  | IDLE
  | HEATING
  | COOLING
  | FAULT
deriving DecidableEq

/-- Control states of the reflow supervisor, from constants.py. -/
inductive ControlState where
  | IDLE
  | PREPARING
  | RUNNING
  | COMPLETE
  | CANCELLED
  | FAULT
deriving DecidableEq

/-- A reflow curve: parallel lists of times (seconds, ints per the schema)
and temperatures (floats, modelled as rationals), from schemas.py. -/
structure ReflowCurve where
  times : List Int
  temperatures : List ℚ
deriving DecidableEq

/-- Embeds ReflowCurveSchema.validate_times (schemas.py lines 13-17):
raises ValidationError when the list differs from its sorted copy. -/
def validate_times (value : List Int) : Except String Unit :=
  if value = value.insertionSort (· ≤ ·) then Except.ok ()
  else Except.error "Times must be in ascending order"

/-- Embeds ReflowCurveSchema.validate_lengths (schemas.py lines 19-24):
raises ValidationError when the two lists differ in length. -/
def validate_lengths (times : List Int) (temperatures : List ℚ) : Except String Unit :=
  if times.length ≠ temperatures.length then
    Except.error "Times and temperatures must be the same length"
  else Except.ok ()

/-- Loading a curve through ReflowCurveSchema: both validators must pass
(field order of the checks does not affect acceptance). -/
def loadReflowCurve (times : List Int) (temperatures : List ℚ) : Except String ReflowCurve :=
  match validate_times times with
  | Except.error e => Except.error e
  | Except.ok _ =>
    match validate_lengths times temperatures with
    | Except.error e => Except.error e
    | Except.ok _ => Except.ok ⟨times, temperatures⟩

/-- Embeds the loop of utils.calculate_derivative (utils.py lines 36-40):
for each consecutive pair compute (temp difference) / (time difference),
raising ZeroDivisionError when two consecutive timestamps coincide. -/
def pyDiffs : List (ℚ × ℚ) → Except String (List ℚ)
  | [] => Except.ok []
  | [_] => Except.ok []
  | p :: q :: rest =>
    if q.1 - p.1 = 0 then Except.error "ZeroDivisionError"
    else
      match pyDiffs (q :: rest) with
      | Except.error e => Except.error e
      | Except.ok ds => Except.ok (((q.2 - p.2) / (q.1 - p.1)) :: ds)

/-- Embeds utils.calculate_derivative (utils.py lines 25-42): 0 for fewer
than two samples, otherwise the mean of the consecutive finite differences. -/
def calculate_derivative (data : List (ℚ × ℚ)) : Except String ℚ :=
  if data.length < 2 then Except.ok 0
  else
    match pyDiffs data with
    | Except.error e => Except.error e
    | Except.ok ds => Except.ok (ds.sum / (ds.length : ℚ))

/-- Embeds the ModelPredictiveControl.temperature getter (mpc.py lines
355-357), which indexes the last element of the sample list; on an empty
list Python raises IndexError, modelled as none. -/
def temperature_get (temps : List (ℚ × ℚ)) : Option ℚ :=
  temps.getLast?.map Prod.snd

/-- Embeds the history-recording branch of ModelPredictiveControl.__monitor
(mpc.py lines 288-293): when the duration history is empty or its last entry
differs from curve_duration, append the duration and the current temperature
(read through the temperature getter, which can raise). -/
def monitorRecordSample (temps : List (ℚ × ℚ)) (duration_history : List Int)
    (temperature_history : List ℚ) (curve_duration : Int) :
    Option (List Int × List ℚ) :=
  if duration_history.getLast? ≠ some curve_duration then
    match temperature_get temps with
    | none => none
    | some T => some (duration_history ++ [curve_duration], temperature_history ++ [T])
  else
    some (duration_history, temperature_history)

end ReflowMPC

namespace ReflowMPC

/-- What a single poll cycle of tms._handle_communication finds on the
serial port: no bytes waiting, a decodable status frame, a decodable log
frame, bytes that fail to decode as JSON, or a blank line. -/
inductive Inbound where
  | silent
  | statusFrame
  | logFrame
  | garbage
  | blank
deriving DecidableEq

/-- The receive-direction state of the communication loop in tms.py:
the monotonic time of the last successfully parsed frame and the
should_reset event. -/
structure CommState where
  last_receive_time : ℚ
  should_reset : Bool
deriving DecidableEq

/-- heartbeat_receive_threshold, tms.py line 19, in seconds. -/
def heartbeat_receive_threshold : ℚ := 1

/-- Embeds one iteration of the inner loop of tms._handle_communication
(tms.py lines 34-76) restricted to the receive-direction state: a parsed
frame updates last_receive_time; undecodable bytes and blank lines are
discarded; only when no bytes are waiting is the silence threshold checked
and should_reset set. The outbound heartbeat half (lines 78-80) touches
neither modelled field. -/
def pollStep (s : CommState) (now : ℚ) (inb : Inbound) : CommState :=
  match inb with
  | Inbound.statusFrame => { s with last_receive_time := now }
  | Inbound.logFrame => { s with last_receive_time := now }
  | Inbound.garbage => s
  | Inbound.blank => s
  | Inbound.silent =>
    if now - s.last_receive_time ≥ heartbeat_receive_threshold then
      { s with should_reset := true }
    else s

/-- The multiprocessing shared cells of mpc.py (lines 224-232), with the
ctypes zero defaults baked into initCells below. -/
structure SharedCells where
  control_state : ControlState
  desired_oven_state : OvenState
  desired_duty_cycle : Int
  current_temperature : ℚ
  current_temperature_derivative : ℚ
  current_door_open : Bool
  curve_duration : Int
deriving DecidableEq

/-- Shared-cell values after ModelPredictiveControl.__init__ (mpc.py lines
247-251); the remaining ctypes cells start at zero / false. -/
def initCells : SharedCells :=
  { control_state := ControlState.IDLE
    desired_oven_state := OvenState.IDLE
    desired_duty_cycle := 0
    current_temperature := 0
    current_temperature_derivative := 0
    current_door_open := false
    curve_duration := 0 }

/-- Embeds the preamble of _run_curve (mpc.py lines 118-121). -/
def runCurvePreamble (s : SharedCells) : SharedCells :=
  { s with curve_duration := 0
           desired_duty_cycle := 0
           desired_oven_state := OvenState.IDLE
           control_state := ControlState.PREPARING }

/-- Embeds entering the cooldown wait of _run_curve (mpc.py lines 139-140). -/
def cooldownEntry (s : SharedCells) : SharedCells :=
  { s with desired_oven_state := OvenState.COOLING, desired_duty_cycle := 0 }

/-- Embeds entering the settle window of _run_curve (mpc.py line 154). -/
def settleEntry (s : SharedCells) : SharedCells :=
  { s with desired_oven_state := OvenState.IDLE }

/-- Embeds entering preheat in _run_curve (mpc.py lines 165-166). -/
def preheatEntry (s : SharedCells) : SharedCells :=
  { s with desired_oven_state := OvenState.HEATING, desired_duty_cycle := 100 }

/-- Embeds entering the RUNNING phase in _run_curve (mpc.py line 174). -/
def runningEntry (s : SharedCells) : SharedCells :=
  { s with control_state := ControlState.RUNNING }

/-- Embeds int(np.clip(x, 0, 100)) from mpc.py line 209: clip to [0, 100]
then truncate to an integer; the clipped value is nonnegative, so the
Python truncation toward zero is the floor. -/
def pyIntClip (x : ℚ) : Int := Int.floor (min 100 (max 0 x))

/-- Modelled from the spec: the output policy round(clip(u, 0, 100)) as the
claim states it, for comparison with pyIntClip. -/
def specRoundClip (x : ℚ) : Int := round (min 100 (max 0 x))

/-- Result of one iteration of the RUNNING loop of _run_curve: the loop
returns on should_exit, breaks to COMPLETE at the end temperature, and
otherwise reaches mpc.py line 210, where reading .value on the integer that
line 209 rebound the name desired_duty_cycle to raises AttributeError. -/
inductive StepOutcome where
  | exited (s : SharedCells)
  | completed (s : SharedCells)
  | attributeError (s : SharedCells) (localDuty : Int)
deriving DecidableEq

/-- Shared cells carried by a RUNNING-loop outcome. -/
def outcomeCells : StepOutcome → SharedCells
  | StepOutcome.exited s => s
  | StepOutcome.completed s => s
  | StepOutcome.attributeError s _ => s

/-- Embeds one iteration of the RUNNING loop of _run_curve (mpc.py lines
182-215). Inputs beyond the shared cells: the peak_hit flag, the curve peak
and end temperatures, the last (shifted, truncated) curve time, the solver
output u0, the elapsed whole seconds, and the should_exit event. Line 209
rebinds the local name desired_duty_cycle to int(np.clip(u0, 0, 100)), so
the shared cell is not written, and line 210 reads .value on that int. -/
def runningStep (s : SharedCells) (peak_hit : Bool) (peak_temperature end_temperature : ℚ)
    (last_curve_time : Int) (u0 : ℚ) (duration : Int) (should_exit : Bool) : StepOutcome :=
  if should_exit then StepOutcome.exited s
  else
    let hit := if s.current_temperature ≥ peak_temperature ∧ ¬ peak_hit then true else peak_hit
    let s1 := if s.current_temperature ≥ peak_temperature ∧ ¬ peak_hit then
                { s with desired_oven_state := OvenState.COOLING }
              else s
    if s1.current_temperature ≤ end_temperature then
      StepOutcome.completed
        { s1 with desired_oven_state := OvenState.IDLE, control_state := ControlState.COMPLETE }
    else
      let u0f := if duration > last_curve_time ∧ hit = true then (0 : ℚ) else u0
      StepOutcome.attributeError s1 (pyIntClip u0f)

/-- Embeds the liveness-failure branch of __monitor (mpc.py lines 280-285). -/
def monitorFault (s : SharedCells) : SharedCells :=
  { s with control_state := ControlState.FAULT
           desired_oven_state := OvenState.IDLE
           desired_duty_cycle := 0 }

/-- Embeds the idle clamp branch of __monitor (mpc.py lines 300-303). -/
def monitorIdleClamp (s : SharedCells) : SharedCells :=
  { s with desired_oven_state := OvenState.IDLE, desired_duty_cycle := 0 }

/-- Object-level state of ModelPredictiveControl: the shared cells plus the
curve, run histories, the should_exit_mpc event, and whether the control
process object exists and is alive. -/
structure MpcModel where
  cells : SharedCells
  curve : ReflowCurve
  duration_history : List Int
  temperature_history : List ℚ
  should_exit_mpc : Bool
  process_created : Bool
  process_alive : Bool
deriving DecidableEq

/-- Embeds the busy property (mpc.py lines 327-329): the process object is
truthy and is_alive(). -/
def busy (m : MpcModel) : Bool := m.process_created && m.process_alive

/-- ModelPredictiveControl state right after __init__ (mpc.py lines 247-255):
no control process exists yet. -/
def initModel : MpcModel :=
  { cells := initCells
    curve := ⟨[], []⟩
    duration_history := []
    temperature_history := []
    should_exit_mpc := false
    process_created := false
    process_alive := false }

/-- State produced by the non-busy branch of start (mpc.py lines 381-395):
control_state is set to IDLE, histories cleared, and a Process object is
constructed but never started, so it is not alive. -/
def startOk (m : MpcModel) (c : ReflowCurve) : MpcModel :=
  { m with cells := { m.cells with control_state := ControlState.IDLE, curve_duration := 0 }
           curve := c
           duration_history := []
           temperature_history := []
           process_created := true
           process_alive := false }

/-- Embeds ModelPredictiveControl.start (mpc.py lines 377-395): raise a
RuntimeError when busy, otherwise produce startOk. -/
def start (m : MpcModel) (c : ReflowCurve) : Except String MpcModel :=
  if busy m then Except.error "Control process is already running"
  else Except.ok (startOk m c)

/-- Embeds ModelPredictiveControl.stop (mpc.py lines 397-401): when busy,
set control_state to CANCELLED, desired_oven_state to IDLE and fire the
should_exit_mpc event; otherwise do nothing. No field beyond those three is
touched. -/
def stop (m : MpcModel) : MpcModel :=
  if busy m then
    { m with cells := { m.cells with control_state := ControlState.CANCELLED
                                     desired_oven_state := OvenState.IDLE }
             should_exit_mpc := true }
  else m

end ReflowMPC

namespace ReflowMPC

/-- Plant constant k (mpc.py line 35 and mock_tms.py line 16, identical
literals in both files). -/
def k_const : ℚ := 4.7875771211019

/-- Plant constant omega (mpc.py line 36 and mock_tms.py line 17). -/
def omega : ℚ := 0.005328475532226316

/-- Plant constant xi (mpc.py line 37 and mock_tms.py line 18). -/
def xi : ℚ := 1.54264888649055

/-- Coefficient a1 = k * omega ^ 2 (mpc.py line 52, mock_tms.py line 28). -/
def a1 : ℚ := k_const * omega ^ 2

/-- Coefficient a2 = 2 * xi * omega (mpc.py line 53, mock_tms.py line 29). -/
def a2 : ℚ := 2 * xi * omega

/-- Coefficient a3 = omega ^ 2 (mpc.py line 54, mock_tms.py line 30). -/
def a3 : ℚ := omega ^ 2

/-- Embeds the continuous-time right-hand side set on the do-mpc model
(mpc.py lines 56-61): the derivative of T is dT and the derivative of dT is
a1 * u - a2 * dT - a3 * T. -/
def mpc_model_rhs (T dT u : ℚ) : ℚ × ℚ :=
  (dT, a1 * u - a2 * dT - a3 * T)

/-- Embeds mock_tms.system_dynamics (mock_tms.py lines 33-36): returns
(T_next, dT_next) with T_next = T + dT * time_step and
dT_next = a1 * u - a2 * dT - a3 * T. -/
def system_dynamics (T dT u time_step : ℚ) : ℚ × ℚ :=
  (T + dT * time_step, a1 * u - a2 * dT - a3 * T)

/-- Modelled from the spec: a forward-Euler step of the 2nd-order plant
model with step dt, as the claim states the simulator behaves, for
comparison with system_dynamics. -/
def specEulerStep (T dT u dt : ℚ) : ℚ × ℚ :=
  (T + dT * dt, dT + (a1 * u - a2 * dT - a3 * T) * dt)

/-- Penalty weight P_T (mpc.py line 87). -/
def P_T : ℚ := 10000

/-- Penalty weight P_u (mpc.py line 88); the literal 1e-8. -/
def P_u : ℚ := 1 / 100000000

/-- Embeds the variable named lterm in _setup_model_and_mpc (mpc.py line
92), commented there as the running cost; this variable is never passed to
set_objective. -/
def lterm (T T_ref u : ℚ) : ℚ := P_T * (T - T_ref) ^ 2 + P_u * u ^ 2

/-- Embeds mterm in _setup_model_and_mpc (mpc.py lines 93-94). -/
def mterm (peak T T_ref : ℚ) : ℚ :=
  P_T * (T - T_ref) ^ 2 + P_T * (1 / (0.01 + |T_ref - peak|)) * (T - peak) ^ 2

/-- The per-stage (Lagrange) cost the MPC actually applies: mpc.py line 97
passes mterm as both the mterm and the lterm argument of set_objective, so
the applied running cost is mterm and does not depend on u. -/
def applied_lterm (peak T T_ref u : ℚ) : ℚ := mterm peak T T_ref

/-- Modelled from the spec: the per-stage cost L_k the claim states,
including the P_u * u ^ 2 input penalty, for comparison with applied_lterm. -/
def specStageCost (peak T T_ref u : ℚ) : ℚ :=
  P_T * (T - T_ref) ^ 2 + P_T * (1 / (0.01 + |T_ref - peak|)) * (T - peak) ^ 2 + P_u * u ^ 2

/-- The scalar MPC settings and bounds set in _setup_model_and_mpc
(mpc.py lines 68-74 and 98-106). -/
structure MpcSetup where
  n_horizon : ℕ
  t_step : ℕ
  rterm_u : ℚ
  u_lower : ℚ
  u_upper : ℚ
  T_upper : ℚ
deriving DecidableEq

/-- The settings and bounds as configured: horizon 120, step 1 s, input
rate penalty 0.01, 0 ≤ u ≤ 100, T ≤ 270 (upper bound only; the lower
temperature bound at line 105 is commented out). -/
def mpcSetup : MpcSetup :=
  { n_horizon := 120, t_step := 1, rterm_u := 0.01
    u_lower := 0, u_upper := 100, T_upper := 270 }

/-- The duty-cycle range invariant of the shared cell. -/
def dutyInRange (s : SharedCells) : Prop :=
  0 ≤ s.desired_duty_cycle ∧ s.desired_duty_cycle ≤ 100

/-- A concrete object state mid-run: process created, alive, RUNNING,
duty cycle 100 after preheat. -/
def runningBusyModel : MpcModel :=
  { cells := { initCells with control_state := ControlState.RUNNING
                              desired_oven_state := OvenState.HEATING
                              desired_duty_cycle := 100 }
    curve := ⟨[0, 30], [25, 210]⟩
    duration_history := []
    temperature_history := []
    should_exit_mpc := false
    process_created := true
    process_alive := true }

/-- A list of integers equals its insertionSort exactly when it is sorted. -/
lemma sorted_iff_eq_insertionSort (l : List Int) :
    l.Sorted (· ≤ ·) ↔ l = l.insertionSort (· ≤ ·) := by
  constructor
  · intro h
    exact (List.Sorted.insertionSort_eq h).symm
  · intro h
    rw [h]
    exact List.sorted_insertionSort _ l

/-- pyDiffs succeeds exactly when no two consecutive samples share a
timestamp. -/
lemma pyDiffs_ok_iff (data : List (ℚ × ℚ)) :
    (∃ ds, pyDiffs data = Except.ok ds) ↔
      ∀ p ∈ data.zip data.tail, p.2.1 ≠ p.1.1 := by
  induction data with
  | nil => simp [pyDiffs]
  | cons a rest ih =>
    cases rest with
    | nil => simp [pyDiffs]
    | cons b rest2 =>
      by_cases h : b.1 - a.1 = 0
      · have hba : b.1 = a.1 := sub_eq_zero.mp h
        simp only [pyDiffs, if_pos h]
        apply iff_of_false
        · rintro ⟨ds, hds⟩
          exact Except.noConfusion hds
        · intro hall
          exact (hall (a, b) (by simp)) hba
      · have hba : b.1 ≠ a.1 := fun he => h (by rw [he, sub_self])
        simp only [pyDiffs, if_neg h]
        cases hrec : pyDiffs (b :: rest2) with
        | error e =>
          simp only [hrec]
          apply iff_of_false
          · rintro ⟨ds, hds⟩
            exact Except.noConfusion hds
          · intro hall
            rcases ih.mpr (fun p hp => hall p (by simp [List.zip_cons_cons]; right; simpa using hp))
              with ⟨ds, hds⟩
            rw [hrec] at hds
            exact Except.noConfusion hds
        | ok ds =>
          simp only [hrec]
          apply iff_of_true
          · exact ⟨_, rfl⟩
          · intro pp hpp
            rcases List.mem_cons.mp (by simpa [List.zip_cons_cons] using hpp) with h1 | h2
            · rw [h1]
              exact hba
            · exact (ih.mp ⟨ds, hrec⟩) pp h2

/-- Lists with fewer than two elements have no consecutive pairs. -/
lemma zip_tail_short (data : List (ℚ × ℚ)) (h : data.length < 2) :
    data.zip data.tail = [] := by
  cases data with
  | nil => rfl
  | cons a rest =>
    cases rest with
    | nil => rfl
    | cons b rest2 => exact absurd h (by simp)

/-- The RUNNING-loop step never writes the shared desired_duty_cycle cell. -/
lemma runningStep_duty_eq (s : SharedCells) (ph : Bool) (pt et : ℚ) (lt : Int) (u0 : ℚ)
    (dur : Int) (ex : Bool) :
    (outcomeCells (runningStep s ph pt et lt u0 dur ex)).desired_duty_cycle =
      s.desired_duty_cycle := by
  by_cases hex : ex = true <;> by_cases hpk : pt ≤ s.current_temperature ∧ ph = false <;>
    by_cases hend : s.current_temperature ≤ et <;>
      simp [runningStep, outcomeCells, hex, hpk, hend]

/-- C1: a RUNNING-loop iteration never writes the shared desired_duty_cycle
cell, whatever the solver returns; and the integer the loop computes into
its local variable is the truncation of the clipped solver output, not its
rounding (at u0 = 0.7 truncation gives 0 where round gives 1). -/
theorem C1_running_loop_never_writes_shared_duty :
    (∀ (s : SharedCells) (ph : Bool) (pt et : ℚ) (lt : Int) (u0 : ℚ) (dur : Int) (ex : Bool),
        (outcomeCells (runningStep s ph pt et lt u0 dur ex)).desired_duty_cycle =
          s.desired_duty_cycle)
    ∧ pyIntClip (7 / 10) = 0 ∧ specRoundClip (7 / 10) = 1 :=
  ⟨fun s ph pt et lt u0 dur ex => runningStep_duty_eq s ph pt et lt u0 dur ex,
   by
    unfold pyIntClip
    rw [show min 100 (max 0 (7 / 10 : ℚ)) = 7 / 10 by norm_num, Int.floor_eq_iff] <;> norm_num,
   by
    unfold specRoundClip
    rw [show min 100 (max 0 (7 / 10 : ℚ)) = 7 / 10 by norm_num, round_eq, Int.floor_eq_iff] <;>
      norm_num⟩

/-- C2: start raises the busy error when the supervisor is alive; otherwise
it succeeds but sets control_state to IDLE (not PREPARING) and never starts
the created process, so the supervisor does not become alive and readers
observe IDLE after start() returns. -/
theorem C2_start_exposes_idle_and_never_spawns (m : MpcModel) (c : ReflowCurve) :
    (busy m = true → start m c = Except.error "Control process is already running")
    ∧ (busy m = false →
        start m c = Except.ok (startOk m c)
        ∧ (startOk m c).cells.control_state = ControlState.IDLE
        ∧ (startOk m c).process_alive = false
        ∧ busy (startOk m c) = false) := by
  constructor
  · intro h
    simp [start, h]
  · intro h
    refine ⟨by simp [start, h], rfl, rfl, by simp [busy, startOk]⟩

/-- C2 witness: a fresh controller is not busy and start succeeds with an
IDLE, not-alive result; on a busy controller start fails with the busy
error. -/
theorem C2_witness :
    start initModel ⟨[0, 30], [25, 210]⟩ = Except.ok (startOk initModel ⟨[0, 30], [25, 210]⟩)
    ∧ start runningBusyModel ⟨[0, 30], [25, 210]⟩ =
        Except.error "Control process is already running" :=
  ⟨((C2_start_exposes_idle_and_never_spawns initModel ⟨[0, 30], [25, 210]⟩).2 rfl).1,
   (C2_start_exposes_idle_and_never_spawns runningBusyModel ⟨[0, 30], [25, 210]⟩).1 rfl⟩

/-- C3 counterexample: a poll cycle that finds undecodable bytes does not
assert should_reset even though more than heartbeat_receive_threshold has
elapsed since the last parsed frame, contradicting the claim that silence
of 1000 ms always asserts the reset within the next poll cycle. -/
theorem C3_counterexample :
    (2 : ℚ) - ({ last_receive_time := 0, should_reset := false } : CommState).last_receive_time
        ≥ heartbeat_receive_threshold
    ∧ (pollStep { last_receive_time := 0, should_reset := false } 2
          Inbound.garbage).should_reset = false := by
  constructor
  · norm_num [heartbeat_receive_threshold]
  · rfl

/-- C3 amended: should_reset is asserted in a poll cycle exactly when that
cycle finds no bytes waiting and at least heartbeat_receive_threshold has
elapsed since the last parsed frame; a cycle that reads bytes, decodable or
not, never changes should_reset, so a parse error alone never resets. -/
theorem C3_reset_only_on_silent_poll (s : CommState) (now : ℚ) (inb : Inbound) :
    (inb = Inbound.silent → now - s.last_receive_time ≥ heartbeat_receive_threshold →
        (pollStep s now inb).should_reset = true)
    ∧ (inb ≠ Inbound.silent → (pollStep s now inb).should_reset = s.should_reset) := by
  constructor
  · intro h1 h2
    subst h1
    simp [pollStep, if_pos h2]
  · intro h1
    cases inb
    · exact absurd rfl h1
    · rfl
    · rfl
    · rfl
    · rfl

/-- C3 witness: at elapsed time 2 s a silent poll sets should_reset, while
a garbage poll leaves it clear. -/
theorem C3_witness :
    (pollStep { last_receive_time := 0, should_reset := false } 2
        Inbound.silent).should_reset = true
    ∧ (pollStep { last_receive_time := 0, should_reset := false } 2
        Inbound.statusFrame).should_reset = false :=
  ⟨(C3_reset_only_on_silent_poll { last_receive_time := 0, should_reset := false } 2
      Inbound.silent).1 rfl (by norm_num [heartbeat_receive_threshold]),
   ((C3_reset_only_on_silent_poll { last_receive_time := 0, should_reset := false } 2
      Inbound.statusFrame).2 (by decide)).trans rfl⟩

/-- C4 counterexample: the validators accept the non-strictly-ascending
times [0, 0] and also the empty curve, both of which the claim says must be
rejected. -/
theorem C4_counterexample :
    loadReflowCurve [0, 0] [25, 26] = Except.ok ⟨[0, 0], [25, 26]⟩
    ∧ loadReflowCurve [] [] = Except.ok ⟨[], []⟩
    ∧ ¬ List.Chain' (· < ·) [(0 : Int), 0] := by
  refine ⟨rfl, rfl, by simp [List.chain'_cons]⟩

/-- C4 amended: curve validation accepts exactly the inputs whose times are
in (weakly) ascending order and whose times and temperatures have equal
length; duplicate consecutive times and empty series pass, and in
particular every equal-length strictly ascending curve is accepted. -/
theorem C4_acceptance_condition (times : List Int) (temps : List ℚ) :
    (∃ c, loadReflowCurve times temps = Except.ok c) ↔
      (times.Sorted (· ≤ ·) ∧ times.length = temps.length) := by
  rw [sorted_iff_eq_insertionSort]
  unfold loadReflowCurve validate_times validate_lengths
  by_cases h1 : times = times.insertionSort (· ≤ ·)
  · by_cases h2 : times.length = temps.length
    · rw [if_pos h1, if_neg (not_not_intro h2)]
      exact iff_of_true ⟨⟨times, temps⟩, rfl⟩ ⟨h1, h2⟩
    · rw [if_pos h1, if_pos h2]
      apply iff_of_false
      · rintro ⟨c, hc⟩
        exact Except.noConfusion hc
      · rintro ⟨hx, hy⟩
        exact h2 hy
  · rw [if_neg h1]
    apply iff_of_false
    · rintro ⟨c, hc⟩
      exact Except.noConfusion hc
    · rintro ⟨hx, hy⟩
      exact h1 hx

/-- C5: the per-stage cost actually applied is mterm, which omits the
P_u * u ^ 2 input penalty the claim includes: the two differ by exactly
P_u * u ^ 2, and at T = T_ref = T_peak = 0, u = 100 the applied stage cost
is 0 while the claimed formula gives 1 / 10000 (and the unused lterm
variable carries exactly that penalty). -/
theorem C5_applied_stage_cost_omits_input_penalty :
    (∀ peak T T_ref u : ℚ,
        specStageCost peak T T_ref u - applied_lterm peak T T_ref u = P_u * u ^ 2)
    ∧ applied_lterm 0 0 0 100 = 0
    ∧ specStageCost 0 0 0 100 = 1 / 10000
    ∧ lterm 0 0 100 = 1 / 10000
    ∧ mpcSetup.rterm_u = 1 / 100 ∧ mpcSetup.u_lower = 0 ∧ mpcSetup.u_upper = 100
    ∧ mpcSetup.T_upper = 270 := by
  refine ⟨?_, ?_, ?_, ?_, by norm_num [mpcSetup], by norm_num [mpcSetup],
    by norm_num [mpcSetup], by norm_num [mpcSetup]⟩
  · intro peak T T_ref u
    unfold specStageCost applied_lterm mterm
    ring
  · norm_num [applied_lterm, mterm]
  · norm_num [specStageCost, P_u, P_T]
  · norm_num [lterm, P_u, P_T]

/-- C6: the simulator step is not the forward-Euler discretization of the
MPC plant model that the claim states: at (T, dT, u) = (0, 1, 0) with a
1 s step, system_dynamics returns new dT = -a2 (the instantaneous second
derivative), while the Euler step of the same right-hand side returns
1 - a2. -/
theorem C6_simulator_step_is_not_euler :
    system_dynamics 0 1 0 1 = (1, -a2)
    ∧ specEulerStep 0 1 0 1 = (1, 1 - a2)
    ∧ system_dynamics 0 1 0 1 ≠ specEulerStep 0 1 0 1
    ∧ (∀ T dT u : ℚ, mpc_model_rhs T dT u = (dT, a1 * u - a2 * dT - a3 * T)) := by
  refine ⟨?_, ?_, ?_, fun T dT u => rfl⟩
  · unfold system_dynamics
    rw [Prod.mk.injEq]
    exact ⟨by ring, by ring⟩
  · unfold specEulerStep
    rw [Prod.mk.injEq]
    exact ⟨by ring, by ring⟩
  · unfold system_dynamics specEulerStep
    intro h
    have h2 : a1 * 0 - a2 * 1 - a3 * 0 = 1 + (a1 * 0 - a2 * 1 - a3 * 0) * 1 :=
      congrArg Prod.snd h
    linarith

/-- C7: every write the control stack performs to the shared
desired_duty_cycle cell stores a value in [0, 100]: it starts at 0, each
supervisor phase writes 0 or 100, the RUNNING loop leaves it unchanged, the
monitor branches write 0, and start and stop preserve the range. -/
theorem C7_duty_cycle_always_in_range :
    dutyInRange initCells
    ∧ (∀ s, dutyInRange (runCurvePreamble s))
    ∧ (∀ s, dutyInRange (cooldownEntry s))
    ∧ (∀ s, dutyInRange s → dutyInRange (settleEntry s))
    ∧ (∀ s, dutyInRange (preheatEntry s))
    ∧ (∀ s, dutyInRange s → dutyInRange (runningEntry s))
    ∧ (∀ (s : SharedCells) (ph : Bool) (pt et : ℚ) (lt : Int) (u0 : ℚ) (dur : Int) (ex : Bool),
        dutyInRange s →
          dutyInRange (outcomeCells (runningStep s ph pt et lt u0 dur ex)))
    ∧ (∀ s, dutyInRange (monitorFault s))
    ∧ (∀ s, dutyInRange (monitorIdleClamp s))
    ∧ (∀ m c, dutyInRange m.cells → dutyInRange (startOk m c).cells)
    ∧ (∀ m, dutyInRange m.cells → dutyInRange (stop m).cells) := by
  refine ⟨by simp [dutyInRange, initCells], fun s => by simp [dutyInRange, runCurvePreamble],
    fun s => by simp [dutyInRange, cooldownEntry], fun s h => h,
    fun s => by simp [dutyInRange, preheatEntry], fun s h => h, ?_,
    fun s => by simp [dutyInRange, monitorFault],
    fun s => by simp [dutyInRange, monitorIdleClamp],
    fun m c h => h, ?_⟩
  · intro s ph pt et lt u0 dur ex h
    simpa [dutyInRange, runningStep_duty_eq] using h
  · intro m h
    unfold stop
    by_cases hb : busy m = true <;> simp [hb] <;> exact h

/-- C7 witness: the invariant holds concretely after preheat entry and is
preserved through settle entry from the initial cells. -/
theorem C7_witness :
    dutyInRange (preheatEntry initCells) ∧ dutyInRange (settleEntry initCells) := by
  obtain ⟨h1, h2, h3, h4, h5, h6, h7, h8, h9, h10, h11⟩ := C7_duty_cycle_always_in_range
  exact ⟨h5 initCells, h4 initCells h1⟩

/-- C8 counterexample: on a busy controller whose duty cycle is 100, stop()
leaves the shared desired_duty_cycle at 100, contradicting the claim that
stop() sets the duty cycle u to 0. -/
theorem C8_counterexample :
    busy runningBusyModel = true
    ∧ (stop runningBusyModel).cells.desired_duty_cycle = 100
    ∧ (stop runningBusyModel).cells.control_state = ControlState.CANCELLED := by
  refine ⟨rfl, by decide, by decide⟩

/-- C8 amended: when the supervisor process is alive, stop() sets
control_state to CANCELLED, desired_oven_state to IDLE and fires
should_exit, but leaves desired_duty_cycle unchanged (the monitor clamp
later writes 0 once the state is CANCELLED); when the process is not
alive, stop() changes nothing. -/
theorem C8_stop_does_not_zero_duty (m : MpcModel) :
    (busy m = true →
        (stop m).cells.control_state = ControlState.CANCELLED
        ∧ (stop m).cells.desired_oven_state = OvenState.IDLE
        ∧ (stop m).should_exit_mpc = true
        ∧ (stop m).cells.desired_duty_cycle = m.cells.desired_duty_cycle)
    ∧ (busy m = false → stop m = m)
    ∧ (∀ s, (monitorIdleClamp s).desired_duty_cycle = 0) := by
  refine ⟨?_, ?_, fun s => rfl⟩
  · intro h
    simp [stop, h]
  · intro h
    simp [stop, h]

/-- C8 witness: stop on a busy controller cancels the run, and stop on a
fresh controller is the identity. -/
theorem C8_witness :
    (stop runningBusyModel).cells.control_state = ControlState.CANCELLED
    ∧ stop initModel = initModel :=
  ⟨((C8_stop_does_not_zero_duty runningBusyModel).1 rfl).1,
   (C8_stop_does_not_zero_duty initModel).2.1 rfl⟩

/-- C9: reading the temperature property with no recorded sample yields the
error case (IndexError on the empty list), so the monitor branch that
samples history during RUNNING before the first temperature write is not
total; once a sample exists the read returns its temperature. -/
theorem C9_temperature_read_partial_on_empty_history :
    temperature_get [] = none
    ∧ monitorRecordSample [] [] [] 0 = none
    ∧ (∀ (ts : List (ℚ × ℚ)) (t T : ℚ), temperature_get (ts ++ [(t, T)]) = some T) := by
  refine ⟨rfl, rfl, ?_⟩
  intro ts t T
  simp [temperature_get]

/-- C10: calculate_derivative succeeds exactly when no two consecutive
samples carry the same timestamp (otherwise the per-pair division raises
ZeroDivisionError), and with fewer than two samples it returns 0. -/
theorem C10_calculate_derivative_division_by_zero :
    (∀ data : List (ℚ × ℚ), data.length < 2 → calculate_derivative data = Except.ok 0)
    ∧ (∀ data : List (ℚ × ℚ),
        (∃ q, calculate_derivative data = Except.ok q) ↔
          ∀ p ∈ data.zip data.tail, p.2.1 ≠ p.1.1) := by
  constructor
  · intro data h
    unfold calculate_derivative
    rw [if_pos h]
  · intro data
    by_cases h : data.length < 2
    · unfold calculate_derivative
      rw [if_pos h, zip_tail_short data h]
      simp
    · unfold calculate_derivative
      rw [if_neg h]
      cases hds : pyDiffs data with
      | error e =>
        apply iff_of_false
        · rintro ⟨q, hq⟩
          exact Except.noConfusion hq
        · intro hall
          rcases (pyDiffs_ok_iff data).mpr hall with ⟨ds, hds2⟩
          rw [hds] at hds2
          exact Except.noConfusion hds2
      | ok ds =>
        apply iff_of_true
        · exact ⟨_, rfl⟩
        · exact (pyDiffs_ok_iff data).mp ⟨ds, hds⟩

/-- C10 witness: on the empty sample list the derivative is 0, and on two
samples sharing the timestamp 0 the computation fails. -/
theorem C10_witness :
    calculate_derivative ([] : List (ℚ × ℚ)) = Except.ok 0
    ∧ ¬ ∃ q, calculate_derivative [((0 : ℚ), (25 : ℚ)), (0, 26)] = Except.ok q :=
  ⟨C10_calculate_derivative_division_by_zero.1 [] (by simp),
   fun hex => by
    have := (C10_calculate_derivative_division_by_zero.2
        [((0 : ℚ), (25 : ℚ)), (0, 26)]).mp hex
    exact (this ((0, 25), (0, 26)) (by decide)) (by decide)⟩

end ReflowMPC

